import Mathlib

/-!
Verification development for the JoistJump endless-runner game
(`src/game.js`, the logarithmic/oscillating variant that the spec follows).

Modelling conventions (shallow embedding):
* All in-game scalar quantities are `ℚ` (the JS source uses doubles on
  exact decimal literals; every operation the claims touch is exact
  rational arithmetic).  The two logarithmic difficulty formulas
  (`updateGame`'s speed curve, `spawnElements`' spawn-rate reduction) are
  the only transcendental computations; they are modelled over `ℝ` as
  `gameSpeedAt` / `spawnIntervalCode` below, and the executable state
  machine receives their values through the `Oracle` record.
* `random()` results and `sin`/`cos` evaluations are external inputs in
  JS (PRNG / math library).  They are supplied by an `Oracle` record, one
  field per call site, so the state machine stays computable.
  `sin (x + PI/2)` in the source is modelled by the `cos` oracle field.
* JS object identity for pooled particles is modelled by an `id : Nat`
  field; freshly allocated particles (`p = {}`) take the next unused id.
* JS arrays are `List`s; `arr[i] = arr[arr.length-1]; arr.pop()`
  (swap-pop removal) is `swapPop`.
-/

/-- `PLAYER_SIZE` (game.js:36). -/
def PLAYER_SIZE : ℚ := 60

/-- `OBSTACLE_SIZE` (game.js:37). -/
def OBSTACLE_SIZE : ℚ := 55

/-- `JOIST_WIDTH` (game.js:38). -/
def JOIST_WIDTH : ℚ := 70

/-- `JOIST_HEIGHT` (game.js:39). -/
def JOIST_HEIGHT : ℚ := 35

/-- `GRAVITY` (game.js:42). -/
def GRAVITY : ℚ := 0.6

/-- `JUMP_FORCE` (game.js:43). -/
def JUMP_FORCE : ℚ := -13

/-- `VARIABLE_JUMP_DAMPING` (game.js:44). -/
def VARIABLE_JUMP_DAMPING : ℚ := 0.5

/-- `INITIAL_GAME_SPEED` (game.js:46). -/
def INITIAL_GAME_SPEED : ℚ := 5

/-- `VERTICAL_MOVE_START_DISTANCE` (game.js:63). -/
def VERTICAL_MOVE_START_DISTANCE : ℚ := 1000

/-- `VERTICAL_MOVE_CHANCE` (game.js:64). -/
def VERTICAL_MOVE_CHANCE : ℚ := 0.35

/-- `VERTICAL_MOVE_RANGE = PLAYER_SIZE * 1.8` (game.js:65). -/
def VERTICAL_MOVE_RANGE : ℚ := PLAYER_SIZE * 1.8

/-- `VERTICAL_MOVE_SPEED` (game.js:66). -/
def VERTICAL_MOVE_SPEED : ℚ := 0.04

/-- `COLLECT_PARTICLES` (game.js:69). -/
def COLLECT_PARTICLES : Nat := 15

/-- `PARTICLE_LIFETIME` (game.js:70). -/
def PARTICLE_LIFETIME : ℤ := 40

/-- `MIN_OBSTACLE_SPAWN_RATE` (game.js:55). -/
def MIN_OBSTACLE_SPAWN_RATE : ℚ := 40

/-- `MIN_JOIST_SPAWN_RATE` (game.js:56). -/
def MIN_JOIST_SPAWN_RATE : ℚ := 60

/-- `BASE_OBSTACLE_SPAWN_RATE` (game.js:59). -/
def BASE_OBSTACLE_SPAWN_RATE : ℚ := 120

/-- `BASE_JOIST_SPAWN_RATE` (game.js:60). -/
def BASE_JOIST_SPAWN_RATE : ℚ := 160

/-- `COLORS.nucorGreen` (game.js:18), the player's primary color. -/
def nucorGreen : ℚ × ℚ × ℚ := (0, 125, 65)

/-- `COLORS.joist` highlight color used for regular-joist collection
particles, `COLORS.joistHighlight` (game.js:23). -/
def joistHighlight : ℚ × ℚ × ℚ := (220, 220, 220)

/-- `COLORS.joistGold` (game.js:24). -/
def joistGold : ℚ × ℚ × ℚ := (255, 215, 0)

/-- An axis-aligned bounding box as produced by the `getBounds` methods
(game.js:529, 712, 864). -/
structure JRect where
  left : ℚ
  right : ℚ
  top : ℚ
  bottom : ℚ
deriving DecidableEq, Repr

/-- `rectOverlap` (game.js:1086-1093): open-interval AABB overlap test. -/
def rectOverlap (rect1 rect2 : JRect) : Bool :=
  decide (rect1.left < rect2.right) &&
  decide (rect1.right > rect2.left) &&
  decide (rect1.top < rect2.bottom) &&
  decide (rect1.bottom > rect2.top)

/-- Player singleton state (the object literal of `createPlayer`,
game.js:421-541, minus draw-only data). -/
structure Player where
  x : ℚ
  y : ℚ
  vy : ℚ
  size : ℚ
  onGround : Bool
  jumpAnimation : ℚ
deriving DecidableEq, Repr

/-- `createPlayer` (game.js:421-430): initial player fields. -/
def createPlayer (width groundY : ℚ) : Player :=
  { x := width * 0.15
    y := groundY - PLAYER_SIZE / 2
    vy := 0
    size := PLAYER_SIZE
    onGround := true
    jumpAnimation := 0 }

/-- `player.update` (game.js:432-453): gravity, integration, ground
clamping, landing transition. -/
def playerUpdate (groundY : ℚ) (p : Player) : Player :=
  let vy := p.vy + GRAVITY
  let y := p.y + vy
  if y ≥ groundY - p.size / 2 then
    let landed : Player := { p with y := groundY - p.size / 2, vy := 0 }
    if p.onGround then landed
    else { landed with onGround := true, jumpAnimation := 0 }
  else
    { p with y := y, vy := vy, onGround := false,
             jumpAnimation := p.jumpAnimation + 0.1 }

/-- `player.jump` (game.js:509-517).  Returns the player together with
the new value of the global `isJumping` flag. -/
def playerJump (p : Player) (isJumping : Bool) : Player × Bool :=
  if p.onGround then
    ({ p with vy := JUMP_FORCE, onGround := false }, true)
  else (p, isJumping)

/-- `player.handleJumpRelease` (game.js:520-526).  Returns the player
together with the new value of the global `isJumping` flag (always
`false`). -/
def playerHandleJumpRelease (p : Player) : Player × Bool :=
  (if p.vy < 0 then { p with vy := p.vy * VARIABLE_JUMP_DAMPING } else p, false)

/-- `player.getBounds` (game.js:529-539). -/
def playerBounds (p : Player) : JRect :=
  let w := p.size * 0.6
  let h := p.size * 0.9
  { left := p.x - w / 2
    right := p.x + w / 2
    top := p.y - h / 2
    bottom := p.y + h / 2 }

/-- Obstacle entity (the object literal of `createObstacle`,
game.js:612-722, minus draw-only data).  `typeNM` models the `'NM'`
versus `'CA'` type tag; `positionType` is `0` (grounded) or `1`
(flying). -/
structure Obstacle where
  x : ℚ
  y : ℚ
  initialY : ℚ
  typeNM : Bool
  size : ℚ
  width : ℚ
  positionType : Nat
  rotAngle : ℚ
  wobbleOffset : ℚ
  canMoveVertically : Bool
  verticalMoveOffset : ℚ
deriving DecidableEq, Repr

/-- `obstacle.getBounds` (game.js:712-721). -/
def obstacleBounds (ob : Obstacle) : JRect :=
  { left := ob.x - ob.width / 2 * 0.9
    right := ob.x + ob.width / 2 * 0.9
    top := ob.y - ob.size / 2 * 0.9
    bottom := ob.y + ob.size / 2 * 0.9 }

/-- `obstacle.isOffScreen` (game.js:706-709). -/
def obstacleOffScreen (ob : Obstacle) : Bool :=
  decide (ob.x < -ob.size * 2)

/-- Joist (pickup) entity (the object literal of `createJoist`,
game.js:771-873, minus draw-only data). -/
structure Joist where
  x : ℚ
  y : ℚ
  baseY : ℚ
  width : ℚ
  height : ℚ
  isGolden : Bool
  rotAngle : ℚ
  hover : ℚ
  animOffset : ℚ
deriving DecidableEq, Repr

/-- `joist.getBounds` (game.js:864-872). -/
def joistBounds (j : Joist) : JRect :=
  { left := j.x - j.width / 2
    right := j.x + j.width / 2
    top := j.y - j.height / 2
    bottom := j.y + j.height / 2 }

/-- `joist.isOffScreen` (game.js:859-861). -/
def joistOffScreen (j : Joist) : Bool :=
  decide (j.x < -j.width)

/-- Score added when a joist is collected (game.js:1062-1068):
5 for golden, 1 for regular. -/
def joistValue (j : Joist) : Nat :=
  if j.isGolden then 5 else 1

/-- A pooled particle (game.js:888-911).  `id` models JS object
identity; `r`,`g`,`b`,`a` model the `color` array. -/
structure Particle where
  id : Nat
  x : ℚ
  y : ℚ
  vx : ℚ
  vy : ℚ
  size : ℚ
  r : ℚ
  g : ℚ
  b : ℚ
  a : ℚ
  life : ℤ
  active : Bool
deriving DecidableEq, Repr

/-- A freshly allocated particle (`p = {}` at game.js:895/1024) with a
given identity; all other fields are immediately overwritten by the
call sites. -/
def blankParticle (id : Nat) : Particle :=
  { id := id, x := 0, y := 0, vx := 0, vy := 0, size := 0,
    r := 0, g := 0, b := 0, a := 0, life := 0, active := false }

/-- Particle-system ownership state: `activeParticles`, `particlePool`
(game.js:79-80) plus the allocation counter that witnesses JS object
identity of fresh particles. -/
structure PSys where
  active : List Particle
  pool : List Particle
  nextId : Nat
deriving DecidableEq, Repr

/-- Swap-with-last removal: `arr[i] = arr[arr.length-1]; arr.pop()`
(game.js:559-560, 741-742, 937-938, 1072-1073). -/
def swapPop (l : List α) (i : Nat) : List α :=
  match l.getLast? with
  | some a => (l.set i a).dropLast
  | none => l

/-- External inputs of one frame: every `random()` result, the `sin`
and `cos` tables, and the two transcendental difficulty values that the
`ℝ`-level formulas `gameSpeedAt` / `spawnIntervalCode` model exactly.
One field per call site of game.js. -/
structure Oracle where
  /-- models p5 `sin` -/
  sin : ℚ → ℚ
  /-- models p5 `cos`; the source's `sin (x + PI/2)` (game.js:666) is `cos x` -/
  cos : ℚ → ℚ
  /-- `random() > 0.5` obstacle type draw (game.js:579) -/
  typeRand : ℚ
  /-- `random() > 0.3` placement draw (game.js:586) -/
  posRand : ℚ
  /-- `random() < VERTICAL_MOVE_CHANCE` draw (game.js:605) -/
  vertRand : ℚ
  /-- `random(TWO_PI)` oscillation phase (game.js:608) -/
  vertPhase : ℚ
  /-- `random(TWO_PI)` wobble phase (game.js:624) -/
  wobblePhase : ℚ
  /-- `random() > 0.6` joist height draw (game.js:765) -/
  heightRand : ℚ
  /-- `random() < 0.15` golden draw (game.js:769) -/
  goldenRand : ℚ
  /-- `random(TWO_PI)` joist animation phase (game.js:781) -/
  animPhase : ℚ
  /-- `random() > 0.3` joist spawn gate (game.js:987) -/
  joistGateRand : ℚ
  /-- `random() > 0.6` golden joist spawn gate (game.js:995) -/
  goldenGateRand : ℚ
  /-- per-particle `random(-3,3)`, `random(-5,0)`, `random(3,8)` or
  `random(-5,5)`, `random(-8,2)`, `random(5,15)` draws (game.js:901-903,
  1029-1031): velocity x, velocity y, size -/
  particleRands : Nat → ℚ × ℚ × ℚ
  /-- value of `INITIAL_GAME_SPEED + SPEED_LOG_BASE * log10 (1 + d *
  SPEED_LOG_SCALE)` (game.js:390-392); modelled exactly by
  `gameSpeedAt` over `ℝ` -/
  speedFn : ℚ → ℚ
  /-- value of `SPAWN_RATE_LOG_BASE * log10 (1 + distance *
  SPAWN_RATE_LOG_SCALE)` (game.js:968-969); modelled exactly by
  `rateReductionAt` over `ℝ` -/
  rateRed : ℚ

/-- `createObstacle` (game.js:577-723): type, placement, spawn height,
and the vertical-oscillation decision.  `width` and `distance` are the
canvas width and current run distance read from globals; `playerSize`
is `player.size`. -/
def createObstacle (o : Oracle) (width groundY distance playerSize : ℚ) :
    Obstacle :=
  let typeNM := decide (o.typeRand > 0.5)
  let size := OBSTACLE_SIZE
  let approxWidth := if typeNM then size * 1.1 else size * 1.0
  let positionType : Nat := if o.posRand > 0.3 then 0 else 1
  let yPos :=
    if positionType = 0 then
      groundY - size / 2
    else
      min (groundY - playerSize * 1.1 - size / 2) (groundY - size * 1.5)
  let canMoveVertically :=
    decide (distance > VERTICAL_MOVE_START_DISTANCE) &&
    decide (o.vertRand < VERTICAL_MOVE_CHANCE)
  { x := width + size
    y := yPos
    initialY := yPos
    typeNM := typeNM
    size := size
    width := approxWidth
    positionType := positionType
    rotAngle := 0
    wobbleOffset := o.wobblePhase
    canMoveVertically := canMoveVertically
    verticalMoveOffset := if canMoveVertically then o.vertPhase else 0 }

/-- `obstacle.update` (game.js:631-673): horizontal scroll, wobble, and
the three mutually exclusive vertical-position cases (oscillation /
hover / grounded). -/
def obstacleUpdate (o : Oracle) (groundY gameSpeed : ℚ) (frameCount : Nat)
    (ob : Obstacle) : Obstacle :=
  let x := ob.x - gameSpeed
  let wobbleSpeed := 0.05 + (gameSpeed - INITIAL_GAME_SPEED) * 0.005
  let wobbleAmount := 0.1 + (gameSpeed - INITIAL_GAME_SPEED) * 0.01
  let rotAngle :=
    o.sin ((frameCount : ℚ) * wobbleSpeed + ob.wobbleOffset) * wobbleAmount
  let y :=
    if ob.canMoveVertically then
      let dynamicMoveSpeed :=
        VERTICAL_MOVE_SPEED + (gameSpeed - INITIAL_GAME_SPEED) * 0.001
      let offsetY :=
        o.sin ((frameCount : ℚ) * dynamicMoveSpeed + ob.verticalMoveOffset) *
          VERTICAL_MOVE_RANGE / 2
      let y1 := ob.initialY + offsetY
      let y2 := max y1 (ob.size / 2)
      min y2 (groundY - ob.size / 2)
    else if ob.positionType = 1 then
      let hoverSpeed := 0.1 + (gameSpeed - INITIAL_GAME_SPEED) * 0.008
      let hoverAmount := 0.5 + (gameSpeed - INITIAL_GAME_SPEED) * 0.1
      ob.initialY +
        o.cos ((frameCount : ℚ) * hoverSpeed + ob.wobbleOffset) * hoverAmount
    else
      ob.initialY
  { ob with x := x, rotAngle := rotAngle, y := y }

/-- `createJoist` (game.js:760-874): spawn height, golden draw. -/
def createJoist (o : Oracle) (width groundY : ℚ) (forceGolden : Bool) :
    Joist :=
  let w := JOIST_WIDTH
  let h := JOIST_HEIGHT
  let spawnY0 := if o.heightRand > 0.6 then groundY - h * 1.5 else groundY - h * 3.5
  let spawnY := max spawnY0 (h * 2)
  let isGolden := forceGolden || decide (o.goldenRand < 0.15)
  { x := width + w
    y := spawnY
    baseY := spawnY
    width := w
    height := h
    isGolden := isGolden
    rotAngle := 0
    hover := 0
    animOffset := o.animPhase }

/-- `joist.update` (game.js:784-800): horizontal scroll, hover, subtle
rotation, and recomputation of `y` from `baseY + hover`. -/
def joistUpdate (o : Oracle) (gameSpeed : ℚ) (frameCount : Nat) (j : Joist) :
    Joist :=
  let x := j.x - gameSpeed
  let hoverSpeed := 0.1 + (gameSpeed - INITIAL_GAME_SPEED) * 0.005
  let hover := o.sin ((frameCount : ℚ) * hoverSpeed + j.animOffset) * 3
  let rotSpeed := 0.03 + (gameSpeed - INITIAL_GAME_SPEED) * 0.002
  let rotAngle := o.sin ((frameCount : ℚ) * rotSpeed + x * 0.01) * 0.05
  { j with x := x, hover := hover, rotAngle := rotAngle, y := j.baseY + hover }

/-- `particlePool.pop()` / `p = {}` acquisition step shared by
`createCollectParticles` (game.js:891-896) and the collision burst
(game.js:1020-1025): reuse the pool's last particle if any, otherwise
allocate a fresh one. -/
def acquire (s : PSys) : Particle × PSys :=
  match s.pool.getLast? with
  | some p => (p, { s with pool := s.pool.dropLast })
  | none => (blankParticle s.nextId, { s with nextId := s.nextId + 1 })

/-- Acquire one particle, reinitialize it with `init`, and append it to
the active set (`activeParticles.push(p)`, game.js:909/1035). -/
def spawnWith (init : Particle → Particle) (s : PSys) : PSys :=
  let (p, s') := acquire s
  { s' with active := s'.active ++ [init p] }

/-- Run a burst: one `spawnWith` per element of `inits`, in order.  This
is the `for (let i = 0; i < n; i++)` burst loop shape shared by
game.js:889-911 and game.js:1019-1036. -/
def burstList : List (Particle → Particle) → PSys → PSys
  | [], s => s
  | f :: fs, s => burstList fs (spawnWith f s)

/-- Field reinitialization of one collection particle
(game.js:899-907): position, oracle-drawn velocities and size, copied
base color with alpha 255, `PARTICLE_LIFETIME`, active. -/
def collectInit (x y : ℚ) (color : ℚ × ℚ × ℚ) (rv : ℚ × ℚ × ℚ)
    (p : Particle) : Particle :=
  { p with x := x, y := y, vx := rv.1, vy := rv.2.1, size := rv.2.2,
           r := color.1, g := color.2.1, b := color.2.2, a := 255,
           life := PARTICLE_LIFETIME, active := true }

/-- `createCollectParticles` (game.js:888-911): a burst of
`COLLECT_PARTICLES` particles at `(x, y)` in the given base color. -/
def createCollectParticles (x y : ℚ) (color : ℚ × ℚ × ℚ)
    (rnds : Nat → ℚ × ℚ × ℚ) (s : PSys) : PSys :=
  burstList ((List.range COLLECT_PARTICLES).map fun i => collectInit x y color (rnds i)) s

/-- Field reinitialization of one collision-explosion particle
(game.js:1026-1034): player position, oracle-drawn velocities and size,
`COLORS.nucorGreen` with alpha 255, lifetime `PARTICLE_LIFETIME * 1.5`,
active. -/
def crashInit (x y : ℚ) (rv : ℚ × ℚ × ℚ) (p : Particle) : Particle :=
  { p with x := x, y := y, vx := rv.1, vy := rv.2.1, size := rv.2.2,
           r := nucorGreen.1, g := nucorGreen.2.1, b := nucorGreen.2.2,
           a := 255, life := 60, active := true }

/-- The 30-particle collision burst of `checkCollisions`
(game.js:1019-1036). -/
def crashBurst (x y : ℚ) (rnds : Nat → ℚ × ℚ × ℚ) (s : PSys) : PSys :=
  burstList ((List.range 30).map fun i => crashInit x y (rnds i)) s

/-- Per-particle physics of `updateParticles` (game.js:922-929):
particle gravity, integration, lifetime decrement, alpha recomputation. -/
def particlePhys (p : Particle) : Particle :=
  let vy := p.vy + 0.1
  let x := p.x + p.vx
  let y := p.y + vy
  let life := p.life - 1
  { p with vy := vy, x := x, y := y, life := life,
           a := ((life : ℚ) / (PARTICLE_LIFETIME : ℚ)) * 255 }

/-- One index of the `updateParticles` backward loop (game.js:919-940):
advance the particle; if expired, deactivate it, return it to the pool,
and swap-pop it out of the active set. -/
def updateParticlesAt (s : PSys) (i : Nat) : PSys :=
  match s.active.get? i with
  | none => s
  | some p =>
    let p' := particlePhys p
    if p'.life ≤ 0 then
      { s with active := swapPop (s.active.set i p') i,
               pool := s.pool ++ [{ p' with active := false }] }
    else
      { s with active := s.active.set i p' }

/-- The `for (let i = activeParticles.length - 1; i >= 0; i--)` loop of
`updateParticles` (game.js:917-941). -/
def updateParticlesLoop (s : PSys) : Nat → PSys
  | 0 => updateParticlesAt s 0
  | i + 1 => updateParticlesLoop (updateParticlesAt s (i + 1)) i

/-- `updateParticles` (game.js:917-941). -/
def updateParticles (s : PSys) : PSys :=
  updateParticlesLoop s (s.active.length - 1)

/-- Whole-run mutable state: the globals of game.js:76-93 that the core
update path touches (background-only arrays and draw-only timestamps are
outside the modelled core), plus the canvas-derived `width`/`groundY`. -/
structure GameState where
  player : Player
  obstacles : List Obstacle
  joists : List Joist
  psys : PSys
  score : Nat
  highScore : Nat
  distance : ℚ
  gameSpeed : ℚ
  gameOver : Bool
  gameStarted : Bool
  isJumping : Bool
  frameCount : Nat
  width : ℚ
  groundY : ℚ
deriving DecidableEq, Repr

/-- One index of the shared backward update-and-remove loop
(`handleObstacles`, game.js:551-563, and `handleJoists`,
game.js:733-745): update the entity in place, then swap-pop it if it is
off-screen. -/
def entityLoopAt (upd : α → α) (off : α → Bool) (l : List α) (i : Nat) :
    List α :=
  match l.get? i with
  | none => l
  | some e =>
    let e' := upd e
    let l' := l.set i e'
    if off e' then swapPop l' i else l'

/-- The backward `for (let i = arr.length - 1; i >= 0; i--)` shape of
`handleObstacles` / `handleJoists`. -/
def entityLoop (upd : α → α) (off : α → Bool) : Nat → List α → List α
  | 0, l => entityLoopAt upd off l 0
  | i + 1, l => entityLoop upd off i (entityLoopAt upd off l (i + 1))

/-- `handleObstacles` (game.js:551-563). -/
def handleObstacles (o : Oracle) (s : GameState) : List Obstacle :=
  entityLoop (obstacleUpdate o s.groundY s.gameSpeed s.frameCount)
    obstacleOffScreen (s.obstacles.length - 1) s.obstacles

/-- `handleJoists` (game.js:733-745). -/
def handleJoists (o : Oracle) (s : GameState) : List Joist :=
  entityLoop (joistUpdate o s.gameSpeed s.frameCount) joistOffScreen
    (s.joists.length - 1) s.joists

/-- `spawnElements` (game.js:965-999).  The transcendental
`rateReduction` is the oracle's `rateRed` input (modelled exactly over
`ℝ` by `rateReductionAt`); the `floor`ed spawn rates and the
`frameCount % rate` gates are computed exactly. -/
def spawnElements (o : Oracle) (s : GameState) : GameState :=
  let rateReduction := o.rateRed
  let obstacleSpawnRate :=
    (⌊max MIN_OBSTACLE_SPAWN_RATE (BASE_OBSTACLE_SPAWN_RATE - rateReduction)⌋).toNat
  let obstacles :=
    if s.frameCount % obstacleSpawnRate = 0 then
      s.obstacles ++ [createObstacle o s.width s.groundY s.distance s.player.size]
    else s.obstacles
  let joistSpawnRate :=
    (⌊max MIN_JOIST_SPAWN_RATE (BASE_JOIST_SPAWN_RATE - rateReduction)⌋).toNat
  let joists1 :=
    if s.frameCount % joistSpawnRate = 0 ∧ o.joistGateRand > 0.3 then
      s.joists ++ [createJoist o s.width s.groundY false]
    else s.joists
  let goldenJoistSpawnRate := joistSpawnRate * 5
  let joists2 :=
    if s.frameCount % goldenJoistSpawnRate = 0 ∧ o.goldenGateRand > 0.6 then
      joists1 ++ [createJoist o s.width s.groundY true]
    else joists1
  { s with obstacles := obstacles, joists := joists2 }

/-- `updateGame` (game.js:376-401): player physics, entity updates and
removal, particle advance, spawning, distance/speed progression, and
the variable-jump-height check. -/
def updateGame (o : Oracle) (s : GameState) : GameState :=
  let player := playerUpdate s.groundY s.player
  let obstacles := handleObstacles o s
  let joists := handleJoists o s
  let psys := updateParticles s.psys
  let s1 := { s with player := player, obstacles := obstacles,
                     joists := joists, psys := psys }
  let s2 := spawnElements o s1
  let distance := s.distance + s.gameSpeed / 10
  let gameSpeed := o.speedFn distance
  let s3 := { s2 with distance := distance, gameSpeed := gameSpeed }
  if s3.isJumping = false ∧ s3.player.vy < -JUMP_FORCE * 0.2 then
    let pr := playerHandleJumpRelease s3.player
    { s3 with player := pr.1, isJumping := pr.2 }
  else s3

/-- One index of the backward joist-collection loop of `checkCollisions`
(game.js:1055-1077): on overlap, add the joist's value to the score,
spawn the tier-colored collection burst, and swap-pop the joist. -/
def collectJoistsAt (o : Oracle) (pb : JRect)
    (st : List Joist × Nat × PSys) (i : Nat) : List Joist × Nat × PSys :=
  match st.1.get? i with
  | none => st
  | some j =>
    if rectOverlap pb (joistBounds j) then
      let psys :=
        if j.isGolden then
          createCollectParticles j.x j.y joistGold o.particleRands st.2.2
        else
          createCollectParticles j.x j.y joistHighlight o.particleRands st.2.2
      (swapPop st.1 i, st.2.1 + joistValue j, psys)
    else st

/-- The `for (let i = joists.length - 1; i >= 0; i--)` collection loop
of `checkCollisions` (game.js:1055-1077); it never exits early. -/
def collectJoistsLoop (o : Oracle) (pb : JRect)
    (st : List Joist × Nat × PSys) : Nat → List Joist × Nat × PSys
  | 0 => collectJoistsAt o pb st 0
  | i + 1 => collectJoistsLoop o pb (collectJoistsAt o pb st (i + 1)) i

/-- `checkCollisions` (game.js:1005-1078).  The obstacle pass stops at
the first overlapping obstacle (the source's early `return`): it sets
`gameOver`, spawns the 30-particle explosion at the player's position in
the player's color, and raises the high score exactly when beaten.  Only
if no obstacle overlaps does the joist-collection loop run. -/
def checkCollisions (o : Oracle) (s : GameState) : GameState :=
  let playerB := playerBounds s.player
  match s.obstacles.find? (fun ob => rectOverlap playerB (obstacleBounds ob)) with
  | some _ =>
    { s with gameOver := true,
             psys := crashBurst s.player.x s.player.y o.particleRands s.psys,
             highScore := if s.score > s.highScore then s.score else s.highScore }
  | none =>
    let r := collectJoistsLoop o playerB (s.joists, s.score, s.psys)
      (s.joists.length - 1)
    { s with joists := r.1, score := r.2.1, psys := r.2.2 }

/-- `resetGame` (game.js:1280-1306): zero the run-scoped scalars, clear
the live entity and active-particle sets (the pool is retained),
recreate the player, clear `gameOver`/`isJumping` (not `gameStarted`),
and reset the frame counter. -/
def resetGame (s : GameState) : GameState :=
  { s with score := 0
           distance := 0
           gameSpeed := INITIAL_GAME_SPEED
           obstacles := []
           joists := []
           psys := { s.psys with active := [] }
           player := createPlayer s.width s.groundY
           gameOver := false
           isJumping := false
           frameCount := 0 }

/-- The running-state dispatch of `draw` (game.js:151-170) restricted to
state-mutating work: p5 increments `frameCount` before each callback;
before the first input and after a terminal collision the game state is
only drawn, never updated, and `checkCollisions` runs right after
`updateGame` while the run is live. -/
def frameStep (o : Oracle) (s : GameState) : GameState :=
  let s' := { s with frameCount := s.frameCount + 1 }
  if s.gameStarted = false then s'
  else if s.gameOver then s'
  else checkCollisions o (updateGame o s')

/-- `SPEED_LOG_BASE` (game.js:49). -/
def SPEED_LOG_BASE : ℝ := 3.0

/-- `SPEED_LOG_SCALE` (game.js:50). -/
def SPEED_LOG_SCALE : ℝ := 0.015

/-- `SPAWN_RATE_LOG_BASE` (game.js:51). -/
def SPAWN_RATE_LOG_BASE : ℝ := 20

/-- `SPAWN_RATE_LOG_SCALE` (game.js:52). -/
def SPAWN_RATE_LOG_SCALE : ℝ := 0.012

/-- The speed progression formula of `updateGame` (game.js:390-392):
`gameSpeed = INITIAL_GAME_SPEED + SPEED_LOG_BASE * log10 (1 + distance *
SPEED_LOG_SCALE)`, over `ℝ` (idealizing IEEE doubles). -/
noncomputable def gameSpeedAt (distance : ℝ) : ℝ :=
  (INITIAL_GAME_SPEED : ℝ) +
    SPEED_LOG_BASE * Real.logb 10 (1 + distance * SPEED_LOG_SCALE)

/-- The `rateReduction` term of `spawnElements` (game.js:968-969):
`SPAWN_RATE_LOG_BASE * log10 (1 + distance * SPAWN_RATE_LOG_SCALE)`. -/
noncomputable def rateReductionAt (distance : ℝ) : ℝ :=
  SPAWN_RATE_LOG_BASE * Real.logb 10 (1 + distance * SPAWN_RATE_LOG_SCALE)

/-- The spawn interval the code computes (game.js:973-974 and 983-984):
`floor (max (minRate, baseRate - rateReduction))`. -/
noncomputable def spawnIntervalCode (distance base minI : ℝ) : ℤ :=
  ⌊max minI (base - rateReductionAt distance)⌋

/-- Modelled from the spec's words (spec §4.1): `spawnInterval(distance,
baseInterval, minInterval) = max(minInterval, baseInterval -
spawnLogBase * log10(1 + distance * spawnLogScale))` — the spec formula
carries no `floor`; compare with `spawnIntervalCode`. -/
noncomputable def spawnIntervalSpec (distance base minI : ℝ) : ℝ :=
  max minI (base - rateReductionAt distance)

/-! ### List lemmas about the swap-pop removal pattern -/

/-- Total number of particle objects owned by the system. -/
def totalParticles (s : PSys) : Nat :=
  s.active.length + s.pool.length

/-- The particle ownership invariant (spec §4.4): active set and pool
share no object identity, and the pool never holds an active-flagged
particle.  The `nextId` bound witnesses freshness of new allocations. -/
def PInv (s : PSys) : Prop :=
  ((s.active ++ s.pool).map Particle.id).Nodup ∧
  (∀ p ∈ s.pool, p.active = false) ∧
  (∀ p ∈ s.active ++ s.pool, p.id < s.nextId)

/-- A concrete active particle for the C4 counterexample. -/
def particleA : Particle :=
  { id := 0, x := 100, y := 100, vx := 1, vy := -2, size := 4,
    r := 220, g := 220, b := 220, a := 255, life := 5, active := true }

/-- A concrete terminal game state holding one active particle and an
empty pool, for the C4 counterexample. -/
def stateA : GameState :=
  { player := createPlayer 1000 800
    obstacles := []
    joists := []
    psys := { active := [particleA], pool := [], nextId := 1 }
    score := 3
    highScore := 7
    distance := 42
    gameSpeed := 6
    gameOver := true
    gameStarted := true
    isJumping := false
    frameCount := 9
    width := 1000
    groundY := 800 }

/-- A concrete oracle for witnesses: all `random()` draws and
trigonometric values fixed. -/
def oBase : Oracle :=
  { sin := fun _ => 0
    cos := fun _ => 0
    typeRand := 0.6
    posRand := 0.2
    vertRand := 0.1
    vertPhase := 0
    wobblePhase := 0
    heightRand := 1
    goldenRand := 1
    animPhase := 0
    joistGateRand := 0
    goldenGateRand := 0
    particleRands := fun _ => (1, -2, 4)
    speedFn := fun _ => 5
    rateRed := 0 }

/-- A regular joist placed on top of the initial player position. -/
def joistA : Joist :=
  { x := 150, y := 770, baseY := 770, width := JOIST_WIDTH,
    height := JOIST_HEIGHT, isGolden := false, rotAngle := 0, hover := 0,
    animOffset := 0 }

/-- A golden joist placed on top of the initial player position. -/
def joistB : Joist :=
  { joistA with isGolden := true }

/-- Concrete running state for the C5 witness: no obstacles, two
overlapping joists. -/
def stateB : GameState :=
  { player := createPlayer 1000 800
    obstacles := []
    joists := [joistA, joistB]
    psys := { active := [], pool := [particleA], nextId := 1 }
    score := 2
    highScore := 7
    distance := 50
    gameSpeed := 5
    gameOver := false
    gameStarted := true
    isJumping := false
    frameCount := 3
    width := 1000
    groundY := 800 }

/-- A concrete grounded obstacle overlapping the initial player
position, for the C1 witness. -/
def obstacleA : Obstacle :=
  { x := 150, y := 770, initialY := 770, typeNM := true,
    size := OBSTACLE_SIZE, width := OBSTACLE_SIZE * 1.1, positionType := 0,
    rotAngle := 0, wobbleOffset := 0, canMoveVertically := false,
    verticalMoveOffset := 0 }

/-- Concrete running state for the C1 witness: one obstacle overlapping
the player, one live joist also overlapping. -/
def stateC : GameState :=
  { player := createPlayer 1000 800
    obstacles := [obstacleA]
    joists := [joistA]
    psys := { active := [], pool := [particleA], nextId := 1 }
    score := 9
    highScore := 7
    distance := 80
    gameSpeed := 5
    gameOver := false
    gameStarted := true
    isJumping := false
    frameCount := 4
    width := 1000
    groundY := 800 }

/-- Airborne player in mid-jump with the jump input already released
(its velocity `-6.5` is the result of a `-13` jump damped once on
release), for the C2 counterexample and witness. -/
def stateD : GameState :=
  { player := { x := 150, y := 700, vy := -6.5, size := PLAYER_SIZE,
                onGround := false, jumpAnimation := 0.4 }
    obstacles := []
    joists := []
    psys := { active := [], pool := [], nextId := 0 }
    score := 0
    highScore := 0
    distance := 0
    gameSpeed := 5
    gameOver := false
    gameStarted := true
    isJumping := false
    frameCount := 1
    width := 1000
    groundY := 800 }

/-- Oracle whose `sin` table is pinned at the sine peak `1`, attainable
at phase `π/2`; used by the C3 counterexample. -/
def oTestC3 : Oracle :=
  { oBase with sin := fun _ => 1 }

theorem set_getElem_self (l : List α) (i : Nat) (h : i < l.length) :
    l.set i l[i] = l := by
  induction l generalizing i with
  | nil => simp at h
  | cons x xs ih =>
    cases i with
    | zero => simp
    | succ n =>
      have hn : n < xs.length := by simpa using h
      simp [List.set_cons_succ, ih n hn]

theorem swapPop_length (l : List α) (i : Nat) (h : i < l.length) :
    (swapPop l i).length = l.length - 1 := by
  have hne : l ≠ [] := List.ne_nil_of_length_pos (Nat.lt_of_le_of_lt (Nat.zero_le i) h)
  unfold swapPop
  rw [List.getLast?_eq_getLast l hne]
  simp

theorem perm_getElem_cons_eraseIdx (l : List α) (i : Nat) (h : i < l.length) :
    l.Perm (l[i] :: l.eraseIdx i) := by
  induction l generalizing i with
  | nil => simp at h
  | cons x xs ih =>
    cases i with
    | zero => simp
    | succ n =>
      have hn : n < xs.length := by simpa using h
      have step1 : (x :: xs).Perm (x :: xs[n] :: xs.eraseIdx n) :=
        (ih n hn).cons x
      have step2 : (x :: xs[n] :: xs.eraseIdx n).Perm
          (xs[n] :: x :: xs.eraseIdx n) := List.Perm.swap _ _ _
      simpa [List.eraseIdx_cons_succ] using step1.trans step2

theorem dropLast_cons_of_ne_nil (x : α) (l : List α) (h : l ≠ []) :
    (x :: l).dropLast = x :: l.dropLast := by
  cases l with
  | nil => exact absurd rfl h
  | cons a as => simp [List.dropLast_cons₂]

theorem swapPop_perm (l : List α) (i : Nat) (h : i < l.length) :
    (swapPop l i).Perm (l.eraseIdx i) := by
  induction l generalizing i with
  | nil => simp at h
  | cons x xs ih =>
    cases xs with
    | nil =>
      cases i with
      | zero => simp [swapPop]
      | succ n => simp at h
    | cons y ys =>
      have hne : (y :: ys : List α) ≠ [] := by simp
      have hlast : (x :: y :: ys).getLast? = some ((y :: ys).getLast hne) := by
        rw [List.getLast?_cons_cons, List.getLast?_eq_getLast _ hne]
      cases i with
      | zero =>
        have hsp : swapPop (x :: y :: ys) 0 =
            (y :: ys).getLast hne :: (y :: ys).dropLast := by
          simp [swapPop, hlast, List.dropLast_cons₂]
        have hperm : ((y :: ys).getLast hne :: (y :: ys).dropLast).Perm
            ((y :: ys).dropLast ++ [(y :: ys).getLast hne]) := by
          simpa using
            (@List.perm_append_comm _ [(y :: ys).getLast hne] (y :: ys).dropLast)
        rw [List.dropLast_append_getLast hne] at hperm
        simpa [hsp] using hperm
      | succ n =>
        have hn : n < (y :: ys).length := by simpa using h
        have hset_ne : (y :: ys).set n ((y :: ys).getLast hne) ≠ [] := by
          intro e
          have := congrArg List.length e
          simp at this
        have hsp : swapPop (x :: y :: ys) (n + 1) = x :: swapPop (y :: ys) n := by
          simp only [swapPop, hlast, List.getLast?_eq_getLast _ hne,
            List.set_cons_succ]
          exact dropLast_cons_of_ne_nil x _ hset_ne
        rw [hsp, List.eraseIdx_cons_succ]
        exact (ih n hn).cons x

/-! ### Particle-system lemmas -/

theorem spawnWith_eq_of_pool_ne (f : Particle → Particle) (s : PSys)
    (hne : s.pool ≠ []) :
    spawnWith f s =
      { active := s.active ++ [f (s.pool.getLast hne)],
        pool := s.pool.dropLast, nextId := s.nextId } := by
  simp [spawnWith, acquire, List.getLast?_eq_getLast _ hne]

theorem spawnWith_eq_of_pool_nil (f : Particle → Particle) (s : PSys)
    (hnil : s.pool = []) :
    spawnWith f s =
      { active := s.active ++ [f (blankParticle s.nextId)],
        pool := [], nextId := s.nextId + 1 } := by
  simp [spawnWith, acquire, hnil]

theorem spawnWith_PInv (f : Particle → Particle)
    (hf : ∀ p, (f p).id = p.id) (s : PSys) (h : PInv s) :
    PInv (spawnWith f s) := by
  obtain ⟨hnd, hpool, hlt⟩ := h
  by_cases hnil : s.pool = []
  · rw [spawnWith_eq_of_pool_nil f s hnil]
    rw [hnil] at hnd hpool hlt
    refine ⟨?_, by simp, ?_⟩
    · simp only [List.append_nil] at hnd ⊢
      rw [List.map_append, List.nodup_append]
      refine ⟨by simpa using hnd, by simp, ?_⟩
      intro a ha hb
      simp only [List.map_cons, List.map_nil, List.mem_singleton, hf,
        blankParticle] at hb
      obtain ⟨p, hp, hpid⟩ := List.mem_map.mp ha
      have := hlt p (by simpa using hp)
      omega
    · intro p hp
      simp only [List.append_nil, List.mem_append, List.mem_singleton] at hp
      show p.id < s.nextId + 1
      rcases hp with hp | hp
      · have := hlt p (by simpa using hp)
        omega
      · rw [hp, hf]
        show s.nextId < s.nextId + 1
        omega
  · rw [spawnWith_eq_of_pool_ne f s hnil]
    set q := s.pool.getLast hnil with hq
    have hsplit : s.pool = s.pool.dropLast ++ [q] :=
      (List.dropLast_append_getLast hnil).symm
    have key : (((s.active ++ [f q]) ++ s.pool.dropLast).map Particle.id).Perm
        ((s.active ++ s.pool).map Particle.id) := by
      conv_rhs => rw [hsplit]
      simp only [List.map_append, List.append_assoc, List.map_cons,
        List.map_nil, hf]
      exact List.Perm.append_left _ List.perm_append_comm
    have hqmem : q ∈ s.pool := List.getLast_mem hnil
    have hDsub : ∀ p ∈ s.pool.dropLast, p ∈ s.pool :=
      fun p hp => (List.dropLast_sublist s.pool).subset hp
    refine ⟨key.symm.nodup hnd, ?_, ?_⟩
    · intro p hp
      exact hpool p (hDsub p hp)
    · intro p hp
      show p.id < s.nextId
      simp only [List.mem_append, List.mem_singleton] at hp
      rcases hp with (hp | hp) | hp
      · exact hlt p (by simp [hp])
      · rw [hp, hf]
        exact hlt q (by simp [hqmem])
      · exact hlt p (by simp [hDsub p hp])

theorem burstList_PInv (fs : List (Particle → Particle))
    (hfs : ∀ f ∈ fs, ∀ p, (f p).id = p.id) (s : PSys) (h : PInv s) :
    PInv (burstList fs s) := by
  induction fs generalizing s with
  | nil => exact h
  | cons f fs ih =>
    exact ih (fun g hg => hfs g (List.mem_cons_of_mem f hg))
      (spawnWith f s) (spawnWith_PInv f (hfs f (List.mem_cons_self f fs)) s h)

theorem eraseIdx_set (l : List α) (i : Nat) (a : α) :
    (l.set i a).eraseIdx i = l.eraseIdx i := by
  induction l generalizing i with
  | nil => simp
  | cons x xs ih =>
    cases i with
    | zero => simp
    | succ n => simp [List.set_cons_succ, List.eraseIdx_cons_succ, ih]

theorem updateParticlesAt_PInv (s : PSys) (i : Nat) (h : PInv s) :
    PInv (updateParticlesAt s i) := by
  obtain ⟨hnd, hpool, hlt⟩ := h
  unfold updateParticlesAt
  cases hget : s.active.get? i with
  | none => exact ⟨hnd, hpool, hlt⟩
  | some p =>
    rw [List.get?_eq_getElem?] at hget
    obtain ⟨hil, hip⟩ := List.getElem?_eq_some_iff.mp hget
    dsimp only
    by_cases hlife : (particlePhys p).life ≤ 0
    · rw [if_pos hlife]
      have hpA : s.active.Perm (p :: s.active.eraseIdx i) := by
        have hpe := perm_getElem_cons_eraseIdx s.active i hil
        rwa [hip] at hpe
      have hAP : (swapPop (s.active.set i (particlePhys p)) i).Perm
          (s.active.eraseIdx i) := by
        have h1 := swapPop_perm (s.active.set i (particlePhys p)) i
          (by simpa using hil)
        rwa [eraseIdx_set] at h1
      have hid1 : ({ particlePhys p with active := false } : Particle).id = p.id := rfl
      have key :
          ((swapPop (s.active.set i (particlePhys p)) i ++
            (s.pool ++ [{ particlePhys p with active := false }])).map
              Particle.id).Perm ((s.active ++ s.pool).map Particle.id) := by
        have e := (s.active.eraseIdx i).map Particle.id
        have hA' : ((swapPop (s.active.set i (particlePhys p)) i).map
            Particle.id).Perm ((s.active.eraseIdx i).map Particle.id) :=
          hAP.map Particle.id
        have hOld : ((s.active ++ s.pool).map Particle.id).Perm
            (p.id :: ((s.active.eraseIdx i).map Particle.id ++
              s.pool.map Particle.id)) := by
          simpa [List.map_append] using (hpA.append_right s.pool).map Particle.id
        have hNew : ((swapPop (s.active.set i (particlePhys p)) i ++
            (s.pool ++ [{ particlePhys p with active := false }])).map
              Particle.id).Perm
            (((s.active.eraseIdx i).map Particle.id ++ s.pool.map Particle.id)
              ++ [p.id]) := by
          simpa [List.map_append, hid1, List.append_assoc] using
            (hA'.append_right (s.pool.map Particle.id ++ [p.id]))
        have hRot : ((((s.active.eraseIdx i).map Particle.id ++
            s.pool.map Particle.id) ++ [p.id])).Perm
            (p.id :: ((s.active.eraseIdx i).map Particle.id ++
              s.pool.map Particle.id)) := by
          simpa using (@List.perm_append_comm _
            ((s.active.eraseIdx i).map Particle.id ++ s.pool.map Particle.id)
            [p.id])
        exact (hNew.trans hRot).trans hOld.symm
      refine ⟨key.symm.nodup hnd, ?_, ?_⟩
      · intro x hx
        simp only [List.mem_append, List.mem_singleton] at hx
        rcases hx with hx | hx
        · exact hpool x hx
        · rw [hx]
      · intro x hx
        show x.id < s.nextId
        simp only [List.mem_append, List.mem_singleton] at hx
        rcases hx with hx | hx | hx
        · have hx' : x ∈ s.active.eraseIdx i := hAP.subset hx
          exact hlt x (by simp [(List.eraseIdx_sublist s.active i).subset hx'])
        · exact hlt x (by simp [hx])
        · rw [hx, hid1]
          exact hlt p (by rw [← hip]; simp [List.getElem_mem hil])
    · rw [if_neg hlife]
      have hid2 : (particlePhys p).id = p.id := rfl
      have hids : (s.active.set i (particlePhys p)).map Particle.id =
          s.active.map Particle.id := by
        rw [List.map_set, hid2]
        have hmi : i < (s.active.map Particle.id).length := by simpa using hil
        have : (s.active.map Particle.id)[i] = p.id := by
          rw [List.getElem_map]
          exact congrArg Particle.id hip
        rw [← this]
        exact set_getElem_self _ i hmi
      refine ⟨?_, hpool, ?_⟩
      · show ((s.active.set i (particlePhys p) ++ s.pool).map Particle.id).Nodup
        rwa [List.map_append, hids, ← List.map_append]
      · intro x hx
        show x.id < s.nextId
        simp only [List.mem_append] at hx
        rcases hx with hx | hx
        · rcases List.mem_or_eq_of_mem_set hx with hx | hx
          · exact hlt x (by simp [hx])
          · rw [hx, hid2]
            exact hlt p (by rw [← hip]; simp [List.getElem_mem hil])
        · exact hlt x (by simp [hx])

theorem updateParticlesLoop_PInv (s : PSys) (i : Nat) (h : PInv s) :
    PInv (updateParticlesLoop s i) := by
  induction i generalizing s with
  | zero => exact updateParticlesAt_PInv s 0 h
  | succ n ih => exact ih _ (updateParticlesAt_PInv s (n + 1) h)

theorem updateParticles_PInv (s : PSys) (h : PInv s) :
    PInv (updateParticles s) :=
  updateParticlesLoop_PInv s _ h

theorem spawnWith_total (f : Particle → Particle) (s : PSys) :
    totalParticles s ≤ totalParticles (spawnWith f s) := by
  by_cases hnil : s.pool = []
  · rw [spawnWith_eq_of_pool_nil f s hnil]
    simp [totalParticles, hnil]
  · rw [spawnWith_eq_of_pool_ne f s hnil]
    have hpos : 0 < s.pool.length := List.length_pos.mpr hnil
    simp only [totalParticles, List.length_append, List.length_singleton,
      List.length_dropLast]
    omega

theorem burstList_total (fs : List (Particle → Particle)) (s : PSys) :
    totalParticles s ≤ totalParticles (burstList fs s) := by
  induction fs generalizing s with
  | nil => exact le_refl _
  | cons f fs ih => exact (spawnWith_total f s).trans (ih (spawnWith f s))

theorem updateParticlesAt_total (s : PSys) (i : Nat) :
    totalParticles (updateParticlesAt s i) = totalParticles s := by
  unfold updateParticlesAt
  cases hget : s.active.get? i with
  | none => rfl
  | some p =>
    rw [List.get?_eq_getElem?] at hget
    obtain ⟨hil, hip⟩ := List.getElem?_eq_some_iff.mp hget
    dsimp only
    by_cases hlife : (particlePhys p).life ≤ 0
    · rw [if_pos hlife]
      have hlen : (swapPop (s.active.set i (particlePhys p)) i).length =
          s.active.length - 1 := by
        rw [swapPop_length _ i (by simpa using hil)]
        simp
      simp only [totalParticles, hlen, List.length_append,
        List.length_singleton]
      omega
    · rw [if_neg hlife]
      simp [totalParticles]

theorem updateParticlesLoop_total (s : PSys) (i : Nat) :
    totalParticles (updateParticlesLoop s i) = totalParticles s := by
  induction i generalizing s with
  | zero => exact updateParticlesAt_total s 0
  | succ n ih => rw [updateParticlesLoop, ih, updateParticlesAt_total]

theorem updateParticles_total (s : PSys) :
    totalParticles (updateParticles s) = totalParticles s :=
  updateParticlesLoop_total s _

theorem burstList_active_spec (Q : Particle → Prop)
    (fs : List (Particle → Particle)) (hfs : ∀ f ∈ fs, ∀ p, Q (f p))
    (s : PSys) :
    ∃ l, (burstList fs s).active = s.active ++ l ∧ l.length = fs.length ∧
      ∀ q ∈ l, Q q := by
  induction fs generalizing s with
  | nil => exact ⟨[], by simp [burstList], rfl, by simp⟩
  | cons f fs ih =>
    have hsp : (spawnWith f s).active = s.active ++ [f (acquire s).1] := by
      by_cases hnil : s.pool = []
      · rw [spawnWith_eq_of_pool_nil f s hnil]
        simp [acquire, hnil]
      · rw [spawnWith_eq_of_pool_ne f s hnil]
        simp [acquire, List.getLast?_eq_getLast _ hnil]
    obtain ⟨l, hl1, hl2, hl3⟩ :=
      ih (fun g hg => hfs g (List.mem_cons_of_mem f hg)) (spawnWith f s)
    refine ⟨f (acquire s).1 :: l, ?_, by simp [hl2], ?_⟩
    · rw [show burstList (f :: fs) s = burstList fs (spawnWith f s) from rfl,
        hl1, hsp, List.append_assoc]
      rfl
    · intro q hq
      rcases List.mem_cons.mp hq with hq | hq
      · rw [hq]
        exact hfs f (List.mem_cons_self f fs) _
      · exact hl3 q hq

/-! ### Joist-collection loop characterization -/

theorem collectJoistsLoop_spec (o : Oracle) (pb : JRect) :
    ∀ (i : Nat) (js : List Joist) (sc : Nat) (ps : PSys),
      i < js.length →
      (∀ k, i < k → ∀ j, js.get? k = some j →
        rectOverlap pb (joistBounds j) = false) →
      ((collectJoistsLoop o pb (js, sc, ps) i).1).Perm
        (js.filter fun j => !rectOverlap pb (joistBounds j)) ∧
      (collectJoistsLoop o pb (js, sc, ps) i).2.1 =
        sc + ((js.filter fun j => rectOverlap pb (joistBounds j)).map
          joistValue).sum := by
  intro i
  induction i with
  | zero =>
    intro js sc ps h0 hk
    cases js with
    | nil => simp at h0
    | cons j0 tl =>
      have htl : ∀ x ∈ tl, rectOverlap pb (joistBounds x) = false := by
        intro x hx
        obtain ⟨k, hkl, hkx⟩ := List.mem_iff_getElem.mp hx
        exact hk (k + 1) (Nat.succ_pos k) x
          (by rw [List.get?_eq_getElem?]; simpa using List.getElem?_eq_getElem hkl ▸ congrArg some hkx)
      by_cases hP : rectOverlap pb (joistBounds j0) = true
      · have hAt : ∃ ps', collectJoistsAt o pb (j0 :: tl, sc, ps) 0 =
            (swapPop (j0 :: tl) 0, sc + joistValue j0, ps') := by
          refine ⟨if j0.isGolden then
            createCollectParticles j0.x j0.y joistGold o.particleRands ps
          else
            createCollectParticles j0.x j0.y joistHighlight o.particleRands ps, ?_⟩
          simp [collectJoistsAt, hP]
        obtain ⟨ps', hAt⟩ := hAt
        rw [show collectJoistsLoop o pb (j0 :: tl, sc, ps) 0 =
          collectJoistsAt o pb (j0 :: tl, sc, ps) 0 from rfl, hAt]
        constructor
        · have hfil : (j0 :: tl).filter
              (fun j => !rectOverlap pb (joistBounds j)) = tl := by
            rw [List.filter_cons_of_neg (by simp [hP])]
            exact List.filter_eq_self.mpr (by intro a ha; simp [htl a ha])
          rw [hfil]
          have := swapPop_perm (j0 :: tl) 0 h0
          simpa using this
        · have hfil : (j0 :: tl).filter
              (fun j => rectOverlap pb (joistBounds j)) = [j0] := by
            rw [List.filter_cons_of_pos (by simp [hP])]
            have : tl.filter (fun j => rectOverlap pb (joistBounds j)) = [] :=
              List.filter_eq_nil_iff.mpr (by intro a ha; simp [htl a ha])
            rw [this]
          rw [hfil]
          simp
      · have hP' : rectOverlap pb (joistBounds j0) = false := by
          simpa using hP
        have hAt : collectJoistsAt o pb (j0 :: tl, sc, ps) 0 =
            (j0 :: tl, sc, ps) := by
          simp [collectJoistsAt, hP']
        rw [show collectJoistsLoop o pb (j0 :: tl, sc, ps) 0 =
          collectJoistsAt o pb (j0 :: tl, sc, ps) 0 from rfl, hAt]
        constructor
        · have hfil : (j0 :: tl).filter
              (fun j => !rectOverlap pb (joistBounds j)) = j0 :: tl :=
            List.filter_eq_self.mpr (by
              intro a ha
              rcases List.mem_cons.mp ha with ha | ha
              · simp [ha, hP']
              · simp [htl a ha])
          rw [hfil]
        · have hfil : (j0 :: tl).filter
              (fun j => rectOverlap pb (joistBounds j)) = [] :=
            List.filter_eq_nil_iff.mpr (by
              intro a ha
              rcases List.mem_cons.mp ha with ha | ha
              · simp [ha, hP']
              · simp [htl a ha])
          rw [hfil]
          simp
  | succ i ih =>
    intro js sc ps h hk
    have hil : i + 1 < js.length := h
    have hget : js.get? (i + 1) = some js[i + 1] := by
      rw [List.get?_eq_getElem?]
      exact List.getElem?_eq_getElem hil
    set j := js[i + 1] with hj
    by_cases hP : rectOverlap pb (joistBounds j) = true
    · have hget' : js[i + 1]? = some j := by
        rw [← List.get?_eq_getElem?]
        exact hget
      have hAt : ∃ ps', collectJoistsAt o pb (js, sc, ps) (i + 1) =
          (swapPop js (i + 1), sc + joistValue j, ps') := by
        refine ⟨if j.isGolden then
          createCollectParticles j.x j.y joistGold o.particleRands ps
        else
          createCollectParticles j.x j.y joistHighlight o.particleRands ps, ?_⟩
        simp [collectJoistsAt, hget, hget', hP]
      obtain ⟨ps', hAt⟩ := hAt
      rw [show collectJoistsLoop o pb (js, sc, ps) (i + 1) =
        collectJoistsLoop o pb (collectJoistsAt o pb (js, sc, ps) (i + 1)) i
        from rfl, hAt]
      have hlen : (swapPop js (i + 1)).length = js.length - 1 :=
        swapPop_length js (i + 1) hil
      have hi' : i < (swapPop js (i + 1)).length := by omega
      have hne : js ≠ [] := List.ne_nil_of_length_pos (by omega)
      have hk' : ∀ k, i < k → ∀ x, (swapPop js (i + 1)).get? k = some x →
          rectOverlap pb (joistBounds x) = false := by
        intro k hik x hx
        rw [List.get?_eq_getElem?] at hx
        have hsp : swapPop js (i + 1) = (js.set (i + 1) (js.getLast hne)).dropLast := by
          unfold swapPop
          rw [List.getLast?_eq_getLast _ hne]
        rw [hsp] at hx
        obtain ⟨hkl, hkx⟩ := List.getElem?_eq_some_iff.mp hx
        have hkl' : k < js.length - 1 := by simpa using hkl
        rw [List.getElem_dropLast] at hkx
        rcases eq_or_ne k (i + 1) with hcase | hcase
        · subst hcase
          rw [List.getElem_set_self] at hkx
          rw [← hkx, List.getLast_eq_getElem js hne]
          exact hk (js.length - 1) (by omega) _
            (by rw [List.get?_eq_getElem?]; exact List.getElem?_eq_getElem (by omega))
        · rw [List.getElem_set_ne (Ne.symm hcase)] at hkx
          rw [← hkx]
          exact hk k (by omega) _
            (by rw [List.get?_eq_getElem?]; exact List.getElem?_eq_getElem (by omega))
      obtain ⟨ihP, ihS⟩ := ih (swapPop js (i + 1)) (sc + joistValue j) ps' hi' hk'
      have hJ : js.Perm (j :: js.eraseIdx (i + 1)) := by
        have := perm_getElem_cons_eraseIdx js (i + 1) hil
        rwa [← hj] at this
      have hS : (swapPop js (i + 1)).Perm (js.eraseIdx (i + 1)) :=
        swapPop_perm js (i + 1) hil
      constructor
      · refine ihP.trans ?_
        have h1 : ((swapPop js (i + 1)).filter
            (fun x => !rectOverlap pb (joistBounds x))).Perm
            ((js.eraseIdx (i + 1)).filter
              (fun x => !rectOverlap pb (joistBounds x))) :=
          hS.filter _
        have h2 : (js.filter (fun x => !rectOverlap pb (joistBounds x))).Perm
            ((j :: js.eraseIdx (i + 1)).filter
              (fun x => !rectOverlap pb (joistBounds x))) :=
          hJ.filter _
        rw [List.filter_cons_of_neg (by simp [hP])] at h2
        exact h1.trans h2.symm
      · rw [ihS]
        have h1 : ((swapPop js (i + 1)).filter
            (fun x => rectOverlap pb (joistBounds x))).Perm
            ((js.eraseIdx (i + 1)).filter
              (fun x => rectOverlap pb (joistBounds x))) :=
          hS.filter _
        have h2 : (js.filter (fun x => rectOverlap pb (joistBounds x))).Perm
            ((j :: js.eraseIdx (i + 1)).filter
              (fun x => rectOverlap pb (joistBounds x))) :=
          hJ.filter _
        rw [List.filter_cons_of_pos (by simp [hP])] at h2
        have e1 := (h1.map joistValue).sum_eq
        have e2 := (h2.map joistValue).sum_eq
        simp only [List.map_cons, List.sum_cons] at e2
        omega
    · have hP' : rectOverlap pb (joistBounds j) = false := by simpa using hP
      have hget' : js[i + 1]? = some j := by
        rw [← List.get?_eq_getElem?]
        exact hget
      have hAt : collectJoistsAt o pb (js, sc, ps) (i + 1) = (js, sc, ps) := by
        simp [collectJoistsAt, hget, hget', hP']
      rw [show collectJoistsLoop o pb (js, sc, ps) (i + 1) =
        collectJoistsLoop o pb (collectJoistsAt o pb (js, sc, ps) (i + 1)) i
        from rfl, hAt]
      refine ih js sc ps (by omega) ?_
      intro k hik x hx
      rcases eq_or_ne k (i + 1) with hcase | hcase
      · rw [hcase] at hx
        rw [hget] at hx
        rw [← Option.some.inj hx]
        exact hP'
      · exact hk k (by omega) x hx

/-! ### Claim theorems -/

/-- C8: the overlap test returns `true` iff `left1 < right2 ∧ right1 >
left2 ∧ top1 < bottom2 ∧ bottom1 > top2`; it is symmetric; boxes sharing
only an edge do not overlap. -/
theorem rectOverlap_spec (A B : JRect) :
    (rectOverlap A B = true ↔
      (A.left < B.right ∧ A.right > B.left ∧ A.top < B.bottom ∧
        A.bottom > B.top)) ∧
    rectOverlap A B = rectOverlap B A ∧
    (A.right = B.left → rectOverlap A B = false) := by
  refine ⟨?_, ?_, ?_⟩
  · simp [rectOverlap, and_assoc]
  · have h : rectOverlap A B = true ↔ rectOverlap B A = true := by
      simp only [rectOverlap, Bool.and_eq_true, decide_eq_true_eq, gt_iff_lt]
      tauto
    exact Bool.coe_iff_coe.mp h
  · intro he
    simp [rectOverlap, he, lt_irrefl]

/-- Witness for C8 at concrete boxes sharing the edge `x = 1`. -/
theorem rectOverlap_spec_witness :
    (JRect.mk 0 1 0 1).right = (JRect.mk 1 2 0 1).left ∧
    rectOverlap (JRect.mk 0 1 0 1) (JRect.mk 1 2 0 1) = false :=
  ⟨rfl, (rectOverlap_spec (JRect.mk 0 1 0 1) (JRect.mk 1 2 0 1)).2.2 rfl⟩

/-- C6: `speed(d) = baseSpeed + logBase * log10 (1 + d * logScale)`,
`speed 0 = baseSpeed` exactly, and `speed` is non-decreasing on
non-decreasing distances `≥ 0`. -/
theorem gameSpeedAt_spec :
    (∀ d : ℝ, gameSpeedAt d = (INITIAL_GAME_SPEED : ℝ) +
      SPEED_LOG_BASE * Real.logb 10 (1 + d * SPEED_LOG_SCALE)) ∧
    gameSpeedAt 0 = (INITIAL_GAME_SPEED : ℝ) ∧
    (∀ d1 d2 : ℝ, 0 ≤ d1 → d1 ≤ d2 → gameSpeedAt d1 ≤ gameSpeedAt d2) := by
  refine ⟨fun d => rfl, ?_, ?_⟩
  · have h1 : (1 : ℝ) + 0 * SPEED_LOG_SCALE = 1 := by ring
    rw [gameSpeedAt, h1, Real.logb_one]
    ring
  · intro d1 d2 h0 h12
    have hscale : (0 : ℝ) < SPEED_LOG_SCALE := by norm_num [SPEED_LOG_SCALE]
    have hx : (0 : ℝ) < 1 + d1 * SPEED_LOG_SCALE := by nlinarith
    have hxy : 1 + d1 * SPEED_LOG_SCALE ≤ 1 + d2 * SPEED_LOG_SCALE := by
      nlinarith
    have hlog := Real.logb_le_logb_of_le (by norm_num : (1:ℝ) < 10) hx hxy
    have hmul := mul_le_mul_of_nonneg_left hlog
      (by norm_num [SPEED_LOG_BASE] : (0:ℝ) ≤ SPEED_LOG_BASE)
    unfold gameSpeedAt
    linarith

/-- Witness for C6's monotonicity at `d1 = 1 ≤ d2 = 2`. -/
theorem gameSpeedAt_spec_witness :
    (0 : ℝ) ≤ 1 ∧ (1 : ℝ) ≤ 2 ∧ gameSpeedAt 1 ≤ gameSpeedAt 2 :=
  ⟨zero_le_one, one_le_two, gameSpeedAt_spec.2.2 1 2 zero_le_one one_le_two⟩

theorem rateReductionAt_pos_lt_one :
    0 < rateReductionAt 1 ∧ rateReductionAt 1 < 1 := by
  have harg : (1 : ℝ) + 1 * SPAWN_RATE_LOG_SCALE = 1.012 := by
    norm_num [SPAWN_RATE_LOG_SCALE]
  constructor
  · rw [rateReductionAt, harg]
    have hl : 0 < Real.logb 10 1.012 :=
      Real.logb_pos (by norm_num) (by norm_num)
    have : (0:ℝ) < SPAWN_RATE_LOG_BASE := by norm_num [SPAWN_RATE_LOG_BASE]
    positivity
  · rw [rateReductionAt, harg]
    have hpow : ((1.012 : ℝ)) ^ (20 : ℕ) < 10 := by norm_num
    have hlog : Real.log ((1.012 : ℝ) ^ (20 : ℕ)) < Real.log 10 :=
      Real.log_lt_log (by positivity) hpow
    rw [Real.log_pow] at hlog
    have hlten : (0:ℝ) < Real.log 10 := Real.log_pos (by norm_num)
    rw [Real.logb, SPAWN_RATE_LOG_BASE]
    rw [mul_div_assoc']
    rw [div_lt_one hlten]
    push_cast at hlog
    linarith

/-- C7 counterexample: at distance `1` the code's obstacle spawn
interval (which is floored) is not equal to the spec's un-floored
formula value. -/
theorem spawnInterval_counterexample :
    ((spawnIntervalCode 1 ((BASE_OBSTACLE_SPAWN_RATE : ℚ) : ℝ)
        ((MIN_OBSTACLE_SPAWN_RATE : ℚ) : ℝ) : ℤ) : ℝ) ≠
      spawnIntervalSpec 1 ((BASE_OBSTACLE_SPAWN_RATE : ℚ) : ℝ)
        ((MIN_OBSTACLE_SPAWN_RATE : ℚ) : ℝ) := by
  obtain ⟨hr0, hr1⟩ := rateReductionAt_pos_lt_one
  have hbase : ((BASE_OBSTACLE_SPAWN_RATE : ℚ) : ℝ) = 120 := by
    norm_num [BASE_OBSTACLE_SPAWN_RATE]
  have hmin : ((MIN_OBSTACLE_SPAWN_RATE : ℚ) : ℝ) = 40 := by
    norm_num [MIN_OBSTACLE_SPAWN_RATE]
  have hspec : spawnIntervalSpec 1 ((BASE_OBSTACLE_SPAWN_RATE : ℚ) : ℝ)
      ((MIN_OBSTACLE_SPAWN_RATE : ℚ) : ℝ) = 120 - rateReductionAt 1 := by
    rw [spawnIntervalSpec, hbase, hmin]
    exact max_eq_right (by linarith)
  have hcode : spawnIntervalCode 1 ((BASE_OBSTACLE_SPAWN_RATE : ℚ) : ℝ)
      ((MIN_OBSTACLE_SPAWN_RATE : ℚ) : ℝ) = 119 := by
    rw [spawnIntervalCode, hbase, hmin]
    rw [max_eq_right (by linarith)]
    rw [Int.floor_eq_iff]
    constructor
    · push_cast
      linarith
    · push_cast
      linarith
  rw [hcode, hspec]
  intro hcontra
  push_cast at hcontra
  linarith

/-- C7 amended: the code's spawn interval is
`floor (max (min, base - spawnLogBase * log10 (1 + d * spawnLogScale)))`;
for every `d ≥ 0` it is at least the minimum interval and at `d = 0` it
equals the base interval exactly, for both the obstacle and joist
cadences. -/
theorem spawnIntervalCode_spec (d : ℝ) (hd : 0 ≤ d) :
    (∀ base minI : ℝ, spawnIntervalCode d base minI =
      ⌊max minI (base - SPAWN_RATE_LOG_BASE *
        Real.logb 10 (1 + d * SPAWN_RATE_LOG_SCALE))⌋) ∧
    (40 ≤ spawnIntervalCode d ((BASE_OBSTACLE_SPAWN_RATE : ℚ) : ℝ)
      ((MIN_OBSTACLE_SPAWN_RATE : ℚ) : ℝ) ∧
     60 ≤ spawnIntervalCode d ((BASE_JOIST_SPAWN_RATE : ℚ) : ℝ)
      ((MIN_JOIST_SPAWN_RATE : ℚ) : ℝ)) ∧
    (spawnIntervalCode 0 ((BASE_OBSTACLE_SPAWN_RATE : ℚ) : ℝ)
      ((MIN_OBSTACLE_SPAWN_RATE : ℚ) : ℝ) = 120 ∧
     spawnIntervalCode 0 ((BASE_JOIST_SPAWN_RATE : ℚ) : ℝ)
      ((MIN_JOIST_SPAWN_RATE : ℚ) : ℝ) = 160) := by
  have hzero : rateReductionAt 0 = 0 := by
    have h1 : (1 : ℝ) + 0 * SPAWN_RATE_LOG_SCALE = 1 := by ring
    rw [rateReductionAt, h1, Real.logb_one]
    ring
  refine ⟨fun base minI => rfl, ⟨?_, ?_⟩, ⟨?_, ?_⟩⟩
  · rw [spawnIntervalCode]
    refine Int.le_floor.mpr ?_
    have : ((MIN_OBSTACLE_SPAWN_RATE : ℚ) : ℝ) = 40 := by
      norm_num [MIN_OBSTACLE_SPAWN_RATE]
    rw [this]
    calc ((40 : ℤ) : ℝ) = 40 := by norm_num
      _ ≤ max 40 (((BASE_OBSTACLE_SPAWN_RATE : ℚ) : ℝ) - rateReductionAt d) :=
        le_max_left _ _
  · rw [spawnIntervalCode]
    refine Int.le_floor.mpr ?_
    have : ((MIN_JOIST_SPAWN_RATE : ℚ) : ℝ) = 60 := by
      norm_num [MIN_JOIST_SPAWN_RATE]
    rw [this]
    calc ((60 : ℤ) : ℝ) = 60 := by norm_num
      _ ≤ max 60 (((BASE_JOIST_SPAWN_RATE : ℚ) : ℝ) - rateReductionAt d) :=
        le_max_left _ _
  · rw [spawnIntervalCode, hzero]
    have hb : ((BASE_OBSTACLE_SPAWN_RATE : ℚ) : ℝ) - 0 = 120 := by
      norm_num [BASE_OBSTACLE_SPAWN_RATE]
    have hm : ((MIN_OBSTACLE_SPAWN_RATE : ℚ) : ℝ) = 40 := by
      norm_num [MIN_OBSTACLE_SPAWN_RATE]
    rw [hb, hm, max_eq_right (by norm_num)]
    norm_num [Int.floor_eq_iff]
  · rw [spawnIntervalCode, hzero]
    have hb : ((BASE_JOIST_SPAWN_RATE : ℚ) : ℝ) - 0 = 160 := by
      norm_num [BASE_JOIST_SPAWN_RATE]
    have hm : ((MIN_JOIST_SPAWN_RATE : ℚ) : ℝ) = 60 := by
      norm_num [MIN_JOIST_SPAWN_RATE]
    rw [hb, hm, max_eq_right (by norm_num)]
    norm_num [Int.floor_eq_iff]

/-- Witness for C7's amended claim at `d = 3`. -/
theorem spawnIntervalCode_spec_witness :
    (0 : ℝ) ≤ 3 ∧
    (40 ≤ spawnIntervalCode 3 ((BASE_OBSTACLE_SPAWN_RATE : ℚ) : ℝ)
      ((MIN_OBSTACLE_SPAWN_RATE : ℚ) : ℝ) ∧
     60 ≤ spawnIntervalCode 3 ((BASE_JOIST_SPAWN_RATE : ℚ) : ℝ)
      ((MIN_JOIST_SPAWN_RATE : ℚ) : ℝ)) :=
  ⟨zero_le_three, (spawnIntervalCode_spec 3 zero_le_three).2.1⟩

/-- C10: reset touches only run-scoped state — the in-memory high
score, the particle pool (and allocation counter), the `gameStarted`
flag and canvas geometry are unchanged; the run-scoped fields are
cleared exactly as listed. -/
theorem resetGame_spec (s : GameState) :
    (resetGame s).highScore = s.highScore ∧
    (resetGame s).psys.pool = s.psys.pool ∧
    (resetGame s).psys.nextId = s.psys.nextId ∧
    (resetGame s).gameStarted = s.gameStarted ∧
    (resetGame s).width = s.width ∧
    (resetGame s).groundY = s.groundY ∧
    (resetGame s).score = 0 ∧
    (resetGame s).distance = 0 ∧
    (resetGame s).gameSpeed = INITIAL_GAME_SPEED ∧
    (resetGame s).obstacles = [] ∧
    (resetGame s).joists = [] ∧
    (resetGame s).psys.active = [] ∧
    (resetGame s).player = createPlayer s.width s.groundY ∧
    (resetGame s).player.onGround = true ∧
    (resetGame s).gameOver = false ∧
    (resetGame s).isJumping = false ∧
    (resetGame s).frameCount = 0 :=
  ⟨rfl, rfl, rfl, rfl, rfl, rfl, rfl, rfl, rfl, rfl, rfl, rfl, rfl, rfl,
    rfl, rfl, rfl⟩

/-- C4 counterexample: a run reset drops the active particles without
returning them to the pool, so the total owned-particle count
decreases. -/
theorem particleTotal_reset_counterexample :
    totalParticles (resetGame stateA).psys < totalParticles stateA.psys := by
  decide

/-- C4 amended: the per-frame particle advance conserves the total
particle count exactly, and bursts never decrease it; but a run reset
clears the active set while only retaining the pool, so the total can
drop at reset (see the counterexample). -/
theorem particleTotal_spec (s : PSys) (x y : ℚ) (c : ℚ × ℚ × ℚ)
    (rnds : Nat → ℚ × ℚ × ℚ) (g : GameState) :
    totalParticles (updateParticles s) = totalParticles s ∧
    totalParticles s ≤ totalParticles (createCollectParticles x y c rnds s) ∧
    totalParticles s ≤ totalParticles (crashBurst x y rnds s) ∧
    (resetGame g).psys.pool = g.psys.pool ∧
    (resetGame g).psys.active = [] :=
  ⟨updateParticles_total s, burstList_total _ s, burstList_total _ s,
    rfl, rfl⟩

/-- C9: burst creation (both collection and collision bursts) and the
per-frame particle advance preserve the ownership invariant: no
particle identity is in both the active set and the pool, and the pool
holds no active-flagged particle. -/
theorem particle_disjointness (s : PSys) (x y : ℚ) (c : ℚ × ℚ × ℚ)
    (rnds : Nat → ℚ × ℚ × ℚ) (h : PInv s) :
    PInv (createCollectParticles x y c rnds s) ∧
    PInv (updateParticles s) ∧
    PInv (crashBurst x y rnds s) := by
  refine ⟨?_, updateParticles_PInv s h, ?_⟩
  · refine burstList_PInv _ ?_ s h
    intro f hf p
    obtain ⟨i, _, rfl⟩ := List.mem_map.mp hf
    rfl
  · refine burstList_PInv _ ?_ s h
    intro f hf p
    obtain ⟨i, _, rfl⟩ := List.mem_map.mp hf
    rfl

/-- Witness for C9 starting from the empty particle system. -/
theorem particle_disjointness_witness :
    PInv (PSys.mk [] [] 0) ∧
    (PInv (createCollectParticles 0 0 joistGold (fun i => (0, 0, 4))
        (PSys.mk [] [] 0)) ∧
     PInv (updateParticles (PSys.mk [] [] 0)) ∧
     PInv (crashBurst 0 0 (fun i => (0, 0, 4)) (PSys.mk [] [] 0))) :=
  ⟨⟨by simp, by simp, by simp⟩,
    particle_disjointness (PSys.mk [] [] 0) 0 0 joistGold (fun i => (0, 0, 4))
      ⟨by simp, by simp, by simp⟩⟩

theorem collectJoists_run (o : Oracle) (pb : JRect) (js : List Joist)
    (sc : Nat) (ps : PSys) :
    ((collectJoistsLoop o pb (js, sc, ps) (js.length - 1)).1).Perm
      (js.filter fun j => !rectOverlap pb (joistBounds j)) ∧
    (collectJoistsLoop o pb (js, sc, ps) (js.length - 1)).2.1 =
      sc + ((js.filter fun j => rectOverlap pb (joistBounds j)).map
        joistValue).sum := by
  cases js with
  | nil =>
    constructor
    · simp [collectJoistsLoop, collectJoistsAt]
    · simp [collectJoistsLoop, collectJoistsAt]
  | cons j tl =>
    refine collectJoistsLoop_spec o pb ((j :: tl).length - 1) (j :: tl) sc ps
      (by simp) ?_
    intro k hk x hx
    rw [List.get?_eq_getElem?] at hx
    obtain ⟨hkl, _⟩ := List.getElem?_eq_some_iff.mp hx
    simp only [List.length_cons, Nat.add_sub_cancel] at hk hkl
    omega

/-- C5: in a frame with no obstacle collision, every joist overlapping
the player is collected (the loop never stops early): the score grows by
the sum of the collected joists' values (1 per regular, 5 per golden),
and the surviving live set is exactly the non-overlapping joists. -/
theorem checkCollisions_joists (o : Oracle) (s : GameState)
    (h : ∀ ob ∈ s.obstacles,
      rectOverlap (playerBounds s.player) (obstacleBounds ob) = false) :
    ((checkCollisions o s).joists).Perm
      (s.joists.filter fun j =>
        !rectOverlap (playerBounds s.player) (joistBounds j)) ∧
    (checkCollisions o s).score =
      s.score + ((s.joists.filter fun j =>
        rectOverlap (playerBounds s.player) (joistBounds j)).map
          joistValue).sum ∧
    (checkCollisions o s).gameOver = s.gameOver ∧
    (checkCollisions o s).highScore = s.highScore := by
  have hfind : s.obstacles.find?
      (fun ob => rectOverlap (playerBounds s.player) (obstacleBounds ob)) =
      none :=
    List.find?_eq_none.mpr (by intro x hx; simp [h x hx])
  obtain ⟨hperm, hsum⟩ :=
    collectJoists_run o (playerBounds s.player) s.joists s.score s.psys
  unfold checkCollisions
  dsimp only
  rw [hfind]
  exact ⟨hperm, hsum, rfl, rfl⟩

/-- Witness for C5 at `stateB`: both joists overlap and are collected. -/
theorem checkCollisions_joists_witness :
    (∀ ob ∈ stateB.obstacles,
      rectOverlap (playerBounds stateB.player) (obstacleBounds ob) = false) ∧
    (((checkCollisions oBase stateB).joists).Perm
      (stateB.joists.filter fun j =>
        !rectOverlap (playerBounds stateB.player) (joistBounds j)) ∧
     (checkCollisions oBase stateB).score =
      stateB.score + ((stateB.joists.filter fun j =>
        rectOverlap (playerBounds stateB.player) (joistBounds j)).map
          joistValue).sum ∧
     (checkCollisions oBase stateB).gameOver = stateB.gameOver ∧
     (checkCollisions oBase stateB).highScore = stateB.highScore) :=
  ⟨by decide, checkCollisions_joists oBase stateB (by decide)⟩

theorem crashBurst_active (x y : ℚ) (rnds : Nat → ℚ × ℚ × ℚ) (s : PSys) :
    ∃ l, (crashBurst x y rnds s).active = s.active ++ l ∧ l.length = 30 ∧
      ∀ q ∈ l, q.x = x ∧ q.y = y ∧ q.r = nucorGreen.1 ∧
        q.g = nucorGreen.2.1 ∧ q.b = nucorGreen.2.2 ∧ q.active = true := by
  obtain ⟨l, h1, h2, h3⟩ := burstList_active_spec
    (fun q => q.x = x ∧ q.y = y ∧ q.r = nucorGreen.1 ∧
      q.g = nucorGreen.2.1 ∧ q.b = nucorGreen.2.2 ∧ q.active = true)
    ((List.range 30).map fun i => crashInit x y (rnds i))
    (by
      intro f hfm p
      obtain ⟨i, _, rfl⟩ := List.mem_map.mp hfm
      exact ⟨rfl, rfl, rfl, rfl, rfl, rfl⟩)
    s
  exact ⟨l, h1, by simpa using h2, h3⟩

theorem checkCollisions_hit_eq (o : Oracle) (s : GameState) (a : Obstacle)
    (hf : s.obstacles.find?
      (fun ob => rectOverlap (playerBounds s.player) (obstacleBounds ob)) =
      some a) :
    checkCollisions o s =
      { s with gameOver := true,
               psys := crashBurst s.player.x s.player.y o.particleRands s.psys,
               highScore := if s.score > s.highScore then s.score
                            else s.highScore } := by
  simp only [checkCollisions, hf]

/-- C1: while the run is live, the first obstacle overlap makes the run
terminal: `gameOver` is set, a 30-particle burst is spawned at the
player's position in the player's color, the high score is overwritten
exactly when the current score exceeds it, the score, the joist set and
the obstacle set are untouched (no pickup is collected in that frame,
and the outcome does not depend on obstacles after the first hit);
once terminal, a frame only advances the frame counter, so the terminal
transition happens exactly once per run. -/
theorem checkCollisions_obstacle_hit (o : Oracle) (s : GameState)
    (h : ∃ ob ∈ s.obstacles,
      rectOverlap (playerBounds s.player) (obstacleBounds ob) = true) :
    (checkCollisions o s).gameOver = true ∧
    (checkCollisions o s).score = s.score ∧
    (checkCollisions o s).joists = s.joists ∧
    (checkCollisions o s).obstacles = s.obstacles ∧
    (checkCollisions o s).highScore =
      (if s.score > s.highScore then s.score else s.highScore) ∧
    (checkCollisions o s).psys.active.length = s.psys.active.length + 30 ∧
    (∀ p ∈ (checkCollisions o s).psys.active.drop s.psys.active.length,
      p.x = s.player.x ∧ p.y = s.player.y ∧ p.r = nucorGreen.1 ∧
      p.g = nucorGreen.2.1 ∧ p.b = nucorGreen.2.2 ∧ p.active = true) ∧
    (∀ s2 : GameState, s2.gameOver = true →
      frameStep o s2 = { s2 with frameCount := s2.frameCount + 1 }) := by
  have hsome : (s.obstacles.find?
      (fun ob => rectOverlap (playerBounds s.player)
        (obstacleBounds ob))).isSome := by
    rw [List.find?_isSome]
    exact h
  obtain ⟨a, hf⟩ := Option.isSome_iff_exists.mp hsome
  obtain ⟨l, hl1, hl2, hl3⟩ :=
    crashBurst_active s.player.x s.player.y o.particleRands s.psys
  have hA : (crashBurst s.player.x s.player.y o.particleRands
      s.psys).active.length = s.psys.active.length + 30 := by
    rw [hl1, List.length_append, hl2]
  have hB : ∀ p ∈ (crashBurst s.player.x s.player.y o.particleRands
      s.psys).active.drop s.psys.active.length,
      p.x = s.player.x ∧ p.y = s.player.y ∧ p.r = nucorGreen.1 ∧
      p.g = nucorGreen.2.1 ∧ p.b = nucorGreen.2.2 ∧ p.active = true := by
    rw [hl1, List.drop_left]
    exact hl3
  have habs : ∀ s2 : GameState, s2.gameOver = true →
      frameStep o s2 = { s2 with frameCount := s2.frameCount + 1 } := by
    intro s2 h2
    unfold frameStep
    by_cases hst : s2.gameStarted = false
    · rw [if_pos hst]
    · rw [if_neg hst, if_pos h2]
  rw [checkCollisions_hit_eq o s a hf]
  exact ⟨rfl, rfl, rfl, rfl, rfl, hA, hB, habs⟩

/-- Witness for C1 at `stateC`: the obstacle overlaps, the run ends,
the joist is not collected, the high score is raised to 9. -/
theorem checkCollisions_obstacle_hit_witness :
    (∃ ob ∈ stateC.obstacles,
      rectOverlap (playerBounds stateC.player) (obstacleBounds ob) = true) ∧
    ((checkCollisions oBase stateC).gameOver = true ∧
     (checkCollisions oBase stateC).score = stateC.score ∧
     (checkCollisions oBase stateC).joists = stateC.joists ∧
     (checkCollisions oBase stateC).obstacles = stateC.obstacles ∧
     (checkCollisions oBase stateC).highScore =
      (if stateC.score > stateC.highScore then stateC.score
       else stateC.highScore) ∧
     (checkCollisions oBase stateC).psys.active.length =
      stateC.psys.active.length + 30 ∧
     (∀ p ∈ (checkCollisions oBase stateC).psys.active.drop
        stateC.psys.active.length,
      p.x = stateC.player.x ∧ p.y = stateC.player.y ∧
      p.r = nucorGreen.1 ∧ p.g = nucorGreen.2.1 ∧ p.b = nucorGreen.2.2 ∧
      p.active = true) ∧
     (∀ s2 : GameState, s2.gameOver = true →
      frameStep oBase s2 = { s2 with frameCount := s2.frameCount + 1 })) :=
  ⟨⟨obstacleA, by
      constructor
      · norm_num [stateC]
      · norm_num [stateC, obstacleA, playerBounds, obstacleBounds,
          createPlayer, rectOverlap, PLAYER_SIZE, OBSTACLE_SIZE]⟩,
    checkCollisions_obstacle_hit oBase stateC ⟨obstacleA, by
      constructor
      · norm_num [stateC]
      · norm_num [stateC, obstacleA, playerBounds, obstacleBounds,
          createPlayer, rectOverlap, PLAYER_SIZE, OBSTACLE_SIZE]⟩⟩

theorem spawnElements_player (o : Oracle) (s : GameState) :
    (spawnElements o s).player = s.player := rfl

theorem updateGame_groundY (o : Oracle) (s : GameState) :
    (updateGame o s).groundY = s.groundY := by
  unfold updateGame
  dsimp only
  split
  · rfl
  · rfl

theorem updateGame_release (o : Oracle) (s : GameState)
    (h1 : s.isJumping = false)
    (h2 : (playerUpdate s.groundY s.player).vy < -JUMP_FORCE * 0.2)
    (h3 : (playerUpdate s.groundY s.player).vy < 0) :
    (updateGame o s).player =
      { playerUpdate s.groundY s.player with
          vy := (playerUpdate s.groundY s.player).vy * VARIABLE_JUMP_DAMPING } ∧
    (updateGame o s).isJumping = false := by
  unfold updateGame
  dsimp only
  split
  · constructor
    · show (playerHandleJumpRelease (playerUpdate s.groundY s.player)).1 = _
      unfold playerHandleJumpRelease
      dsimp only
      rw [if_pos h3]
    · rfl
  · rename_i hc
    exact absurd ⟨h1, h2⟩ hc

/-- C2 amended: whenever a frame starts with the jump input released
and the post-gravity velocity below the threshold `-JUMP_FORCE * 0.2`
while still moving upward, `updateGame` multiplies the velocity by the
damping factor in that frame — the damping is re-applied on every such
frame, not only once per jump. -/
theorem updateGame_damping (o : Oracle) (s : GameState)
    (h1 : s.isJumping = false)
    (h2 : (playerUpdate s.groundY s.player).vy < -JUMP_FORCE * 0.2)
    (h3 : (playerUpdate s.groundY s.player).vy < 0) :
    (updateGame o s).player.vy =
      (playerUpdate s.groundY s.player).vy * VARIABLE_JUMP_DAMPING ∧
    (updateGame o s).isJumping = false := by
  obtain ⟨hp, hj⟩ := updateGame_release o s h1 h2 h3
  rw [hp]
  exact ⟨rfl, hj⟩

/-- C2 counterexample: starting from `stateD` (already damped once on
release), `updateGame` halves the upward velocity again in the next
frame and once more in the frame after that, while the player stays
airborne in the same jump: the result after two frames is
`((vy + g)·0.5 + g)·0.5 = -1.175`, not the once-only value
`(vy + g)·0.5 + g = -2.35`. -/
theorem updateGame_damping_counterexample :
    stateD.isJumping = false ∧
    stateD.player.onGround = false ∧
    (updateGame oBase stateD).player.vy =
      (stateD.player.vy + GRAVITY) * VARIABLE_JUMP_DAMPING ∧
    (updateGame oBase stateD).player.onGround = false ∧
    (updateGame oBase (updateGame oBase stateD)).player.vy =
      (((stateD.player.vy + GRAVITY) * VARIABLE_JUMP_DAMPING) + GRAVITY) *
        VARIABLE_JUMP_DAMPING ∧
    (updateGame oBase (updateGame oBase stateD)).player.vy ≠
      ((stateD.player.vy + GRAVITY) * VARIABLE_JUMP_DAMPING) + GRAVITY := by
  have q1 : playerUpdate stateD.groundY stateD.player =
      { x := 150, y := 694.1, vy := -5.9, size := PLAYER_SIZE,
        onGround := false, jumpAnimation := 0.5 } := by
    norm_num [playerUpdate, stateD, GRAVITY, PLAYER_SIZE, Player.mk.injEq]
  obtain ⟨r1, j1⟩ := updateGame_release oBase stateD rfl
    (by rw [q1]; norm_num [JUMP_FORCE])
    (by rw [q1]; norm_num)
  have hp1 : (updateGame oBase stateD).player =
      { x := 150, y := 694.1, vy := -2.95, size := PLAYER_SIZE,
        onGround := false, jumpAnimation := 0.5 } := by
    rw [r1, q1]
    norm_num [Player.mk.injEq, VARIABLE_JUMP_DAMPING]
  have hg1 : (updateGame oBase stateD).groundY = 800 :=
    updateGame_groundY oBase stateD
  have q2 : playerUpdate (updateGame oBase stateD).groundY
      (updateGame oBase stateD).player =
      { x := 150, y := 691.75, vy := -2.35, size := PLAYER_SIZE,
        onGround := false, jumpAnimation := 0.6 } := by
    rw [hg1, hp1]
    norm_num [playerUpdate, GRAVITY, PLAYER_SIZE, Player.mk.injEq]
  obtain ⟨r2, j2⟩ := updateGame_release oBase (updateGame oBase stateD) j1
    (by rw [q2]; norm_num [JUMP_FORCE])
    (by rw [q2]; norm_num)
  refine ⟨rfl, rfl, ?_, ?_, ?_, ?_⟩
  · rw [hp1]
    norm_num [stateD, GRAVITY, VARIABLE_JUMP_DAMPING]
  · rw [hp1]
  · rw [r2, q2]
    norm_num [stateD, GRAVITY, VARIABLE_JUMP_DAMPING]
  · rw [r2, q2]
    norm_num [stateD, GRAVITY, VARIABLE_JUMP_DAMPING]

/-- Witness for C2's amended claim at `stateD`. -/
theorem updateGame_damping_witness :
    stateD.isJumping = false ∧
    (playerUpdate stateD.groundY stateD.player).vy < -JUMP_FORCE * 0.2 ∧
    (playerUpdate stateD.groundY stateD.player).vy < 0 ∧
    ((updateGame oBase stateD).player.vy =
      (playerUpdate stateD.groundY stateD.player).vy *
        VARIABLE_JUMP_DAMPING ∧
     (updateGame oBase stateD).isJumping = false) :=
  ⟨rfl,
   by norm_num [playerUpdate, stateD, GRAVITY, PLAYER_SIZE, JUMP_FORCE],
   by norm_num [playerUpdate, stateD, GRAVITY, PLAYER_SIZE],
   updateGame_damping oBase stateD rfl
     (by norm_num [playerUpdate, stateD, GRAVITY, PLAYER_SIZE, JUMP_FORCE])
     (by norm_num [playerUpdate, stateD, GRAVITY, PLAYER_SIZE])⟩

/-- C3 counterexample: an aerial obstacle created past
`VERTICAL_MOVE_START_DISTANCE` with oscillation enabled descends (at a
sine value of `1`, within the sine's range) until the gap between the
bottom of its collision box and the ground line is `14.75`, far below
the player's collision height `54` — the player cannot pass beneath it. -/
theorem aerialGap_counterexample :
    (createObstacle oTestC3 1000 800 1001 PLAYER_SIZE).positionType = 1 ∧
    (createObstacle oTestC3 1000 800 1001 PLAYER_SIZE).canMoveVertically =
      true ∧
    (∀ q : ℚ, -1 ≤ oTestC3.sin q ∧ oTestC3.sin q ≤ 1) ∧
    (playerBounds (createPlayer 1000 800)).bottom -
      (playerBounds (createPlayer 1000 800)).top = PLAYER_SIZE * 0.9 ∧
    800 - (obstacleBounds (obstacleUpdate oTestC3 800 INITIAL_GAME_SPEED 1
      (createObstacle oTestC3 1000 800 1001 PLAYER_SIZE))).bottom <
      PLAYER_SIZE * 0.9 := by
  refine ⟨?_, ?_, ?_, ?_, ?_⟩
  · norm_num [createObstacle, oTestC3, oBase]
  · norm_num [createObstacle, oTestC3, oBase, VERTICAL_MOVE_START_DISTANCE,
      VERTICAL_MOVE_CHANCE]
  · intro q
    constructor
    · norm_num [oTestC3, oBase]
    · norm_num [oTestC3, oBase]
  · norm_num [playerBounds, createPlayer, PLAYER_SIZE]
  · norm_num [createObstacle, obstacleUpdate, obstacleBounds, oTestC3,
      oBase, OBSTACLE_SIZE, PLAYER_SIZE, INITIAL_GAME_SPEED,
      VERTICAL_MOVE_START_DISTANCE, VERTICAL_MOVE_CHANCE,
      VERTICAL_MOVE_RANGE, VERTICAL_MOVE_SPEED, min_def, max_def]

/-- C3 amended: every aerial obstacle is created with a gap of `68.75`
beneath its collision box — more than the player's collision height
`54` — and an aerial obstacle *without* vertical oscillation keeps a
sufficient gap at every frame as long as the game speed is at most
`147.5` (the hover amplitude grows with speed); with oscillation
enabled the gap can drop below the player's height (see the
counterexample). -/
theorem aerialGap_spec (o : Oracle) (width groundY distance gameSpeed : ℚ)
    (fc : Nat) (ob : Obstacle)
    (hob : ob = createObstacle o width groundY distance PLAYER_SIZE)
    (hfly : ob.positionType = 1)
    (hnosc : ob.canMoveVertically = false)
    (hcos : ∀ q : ℚ, -1 ≤ o.cos q ∧ o.cos q ≤ 1)
    (hsp1 : INITIAL_GAME_SPEED ≤ gameSpeed)
    (hsp2 : gameSpeed ≤ 147.5) :
    groundY - (obstacleBounds ob).bottom ≥ PLAYER_SIZE * 0.9 ∧
    groundY - (obstacleBounds (obstacleUpdate o groundY gameSpeed fc
      ob)).bottom ≥ PLAYER_SIZE * 0.9 := by
  subst hob
  have hpr : ¬ (o.posRand > 0.3) := by
    intro hp
    have h0 : (createObstacle o width groundY distance
        PLAYER_SIZE).positionType = 0 := by
      simp [createObstacle, hp]
    exact absurd (h0.symm.trans hfly) (by norm_num)
  have hyv : (createObstacle o width groundY distance PLAYER_SIZE).y =
      groundY - PLAYER_SIZE * 1.1 - OBSTACLE_SIZE / 2 := by
    have hy : (createObstacle o width groundY distance PLAYER_SIZE).y =
        min (groundY - PLAYER_SIZE * 1.1 - OBSTACLE_SIZE / 2)
          (groundY - OBSTACLE_SIZE * 1.5) := by
      simp [createObstacle, hpr]
    rw [hy]
    refine min_eq_left ?_
    simp only [PLAYER_SIZE, OBSTACLE_SIZE]
    linarith
  have hiy : (createObstacle o width groundY distance
      PLAYER_SIZE).initialY = groundY - PLAYER_SIZE * 1.1 -
      OBSTACLE_SIZE / 2 := by
    have hy : (createObstacle o width groundY distance
        PLAYER_SIZE).initialY =
        min (groundY - PLAYER_SIZE * 1.1 - OBSTACLE_SIZE / 2)
          (groundY - OBSTACLE_SIZE * 1.5) := by
      simp [createObstacle, hpr]
    rw [hy]
    refine min_eq_left ?_
    simp only [PLAYER_SIZE, OBSTACLE_SIZE]
    linarith
  have hsize : (createObstacle o width groundY distance
      PLAYER_SIZE).size = OBSTACLE_SIZE := by
    simp [createObstacle]
  constructor
  · show groundY - ((createObstacle o width groundY distance
      PLAYER_SIZE).y + (createObstacle o width groundY distance
      PLAYER_SIZE).size / 2 * 0.9) ≥ PLAYER_SIZE * 0.9
    rw [hyv, hsize]
    simp only [PLAYER_SIZE, OBSTACLE_SIZE]
    linarith
  · have hyu : (obstacleUpdate o groundY gameSpeed fc
        (createObstacle o width groundY distance PLAYER_SIZE)).y =
        (createObstacle o width groundY distance PLAYER_SIZE).initialY +
          o.cos ((fc : ℚ) * (0.1 + (gameSpeed - INITIAL_GAME_SPEED) * 0.008) +
            (createObstacle o width groundY distance
              PLAYER_SIZE).wobbleOffset) *
            (0.5 + (gameSpeed - INITIAL_GAME_SPEED) * 0.1) := by
      simp [obstacleUpdate, hnosc, hfly]
    have hsizeu : (obstacleUpdate o groundY gameSpeed fc
        (createObstacle o width groundY distance PLAYER_SIZE)).size =
        OBSTACLE_SIZE := by
      simp only [obstacleUpdate]
      exact hsize
    show groundY - ((obstacleUpdate o groundY gameSpeed fc
      (createObstacle o width groundY distance PLAYER_SIZE)).y +
      (obstacleUpdate o groundY gameSpeed fc
      (createObstacle o width groundY distance PLAYER_SIZE)).size / 2 * 0.9)
      ≥ PLAYER_SIZE * 0.9
    rw [hyu, hsizeu, hiy]
    have hAnn : (0 : ℚ) ≤ 0.5 + (gameSpeed - INITIAL_GAME_SPEED) * 0.1 := by
      simp only [INITIAL_GAME_SPEED] at hsp1 ⊢
      linarith
    have hmul : o.cos ((fc : ℚ) * (0.1 + (gameSpeed - INITIAL_GAME_SPEED) *
        0.008) + (createObstacle o width groundY distance
          PLAYER_SIZE).wobbleOffset) *
        (0.5 + (gameSpeed - INITIAL_GAME_SPEED) * 0.1) ≤
        0.5 + (gameSpeed - INITIAL_GAME_SPEED) * 0.1 :=
      mul_le_of_le_one_left hAnn (hcos _).2
    simp only [PLAYER_SIZE, OBSTACLE_SIZE, INITIAL_GAME_SPEED] at hmul hsp2 ⊢
    linarith

/-- Witness for C3's amended claim: a freshly created,
non-oscillating aerial obstacle at initial speed. -/
theorem aerialGap_spec_witness :
    ((createObstacle oBase 1000 800 0 PLAYER_SIZE).positionType = 1 ∧
     (createObstacle oBase 1000 800 0 PLAYER_SIZE).canMoveVertically =
      false ∧
     (∀ q : ℚ, -1 ≤ oBase.cos q ∧ oBase.cos q ≤ 1) ∧
     INITIAL_GAME_SPEED ≤ (5 : ℚ) ∧ (5 : ℚ) ≤ 147.5) ∧
    (800 - (obstacleBounds (createObstacle oBase 1000 800 0
      PLAYER_SIZE)).bottom ≥ PLAYER_SIZE * 0.9 ∧
     800 - (obstacleBounds (obstacleUpdate oBase 800 5 2
      (createObstacle oBase 1000 800 0 PLAYER_SIZE))).bottom ≥
      PLAYER_SIZE * 0.9) :=
  ⟨⟨by norm_num [createObstacle, oBase],
    by norm_num [createObstacle, oBase, VERTICAL_MOVE_START_DISTANCE,
      VERTICAL_MOVE_CHANCE],
    fun q => ⟨by norm_num [oBase], by norm_num [oBase]⟩,
    by norm_num [INITIAL_GAME_SPEED], by norm_num⟩,
   aerialGap_spec oBase 1000 800 0 5 2
     (createObstacle oBase 1000 800 0 PLAYER_SIZE) rfl
     (by norm_num [createObstacle, oBase])
     (by norm_num [createObstacle, oBase, VERTICAL_MOVE_START_DISTANCE,
       VERTICAL_MOVE_CHANCE])
     (fun q => ⟨by norm_num [oBase], by norm_num [oBase]⟩)
     (by norm_num [INITIAL_GAME_SPEED]) (by norm_num)⟩
